import Mathlib

/-!
Shallow embedding of the "water-time" hydration-tracker page (a React
client component).  The interactive core is a single state record mutated
by event handlers and by a one-second recurring interval.

Modelling conventions:
* JavaScript numbers are modelled as exact rationals (`ℚ`); the arithmetic
  of the depletion driver (`100 / (timerDuration * 60)` per tick) is the
  idealized real arithmetic the source comments describe, with no binary
  floating-point rounding.
* The recurring interval (`setInterval` / `clearInterval` and the ref
  `hydrationIntervalRef`) is modelled by two bookkeeping fields:
  `liveIntervals` counts recurring tasks that were created and not yet
  cancelled, and `refHeld` records whether `hydrationIntervalRef.current`
  is non-null.  Every creation in the source stores the new handle in the
  ref after first cancelling the handle the ref held.
* DOM side effects (notifications, audio, visual flash, message box) are
  reported in an `Effects` record emitted by each operation.
-/

/-- The `ReminderSettings` interface: one boolean per reminder channel. -/
structure ReminderSettings where
  browser : Bool
  sound : Bool
  visual : Bool
deriving DecidableEq

/-- The three body variants offered by the body-type selector. -/
inductive BodyType
  | generic
  | slim
  | muscular
deriving DecidableEq

/-- The three reminder channels toggled by the checkboxes. -/
inductive Channel
  | browser
  | sound
  | visual
deriving DecidableEq

/-- The component state of `HomePage` together with the interval
bookkeeping described in the module comment. -/
structure AppState where
  currentWaterLevel : ℚ
  timerDuration : ℤ
  selectedBodyType : BodyType
  reminderSettings : ReminderSettings
  hydrationTip : String
  isLoadingTip : Bool
  liveIntervals : ℕ
  refHeld : Bool
deriving DecidableEq

/-- Observable side effects of one operation: how many recurring tasks it
cancelled and started, whether `triggerReminder` ran, which channel
functions `triggerReminder` invoked, and the `showMessage` calls
(message text with display duration in milliseconds). -/
structure Effects where
  cancelled : ℕ
  started : ℕ
  reminderDispatched : Bool
  channels : ReminderSettings
  messages : List (String × ℕ)
deriving DecidableEq

/-- The empty effect record. -/
def noEffects : Effects :=
  { cancelled := 0, started := 0, reminderDispatched := false
    channels := { browser := false, sound := false, visual := false }
    messages := [] }

/-- Source line `const waterDecreasePerSecond = 100 / (timerDuration * 60)`
from `decrementWaterLevel`. -/
def waterDecreasePerSecond (timerDuration : ℤ) : ℚ :=
  100 / ((timerDuration : ℚ) * 60)

/-- Function `triggerReminder`: invokes each enabled channel (browser, sound,
visual) according to the current settings. -/
def triggerReminder (rs : ReminderSettings) : Effects :=
  { noEffects with reminderDispatched := true, channels := rs }

/-- Function `decrementWaterLevel`: subtract `waterDecreasePerSecond` from the
water level; if the result is `≤ 0`, clear the interval (the ref becomes
null), run `triggerReminder`, show "Time to drink water!" for 5000 ms and
clamp the level to 0. -/
def decrementWaterLevel (s : AppState) : AppState × Effects :=
  let newLevel := s.currentWaterLevel - waterDecreasePerSecond s.timerDuration
  if newLevel ≤ 0 then
    ({ s with
        currentWaterLevel := 0
        liveIntervals := if s.refHeld then s.liveIntervals - 1 else s.liveIntervals
        refHeld := false },
     { triggerReminder s.reminderSettings with
        cancelled := if s.refHeld then 1 else 0
        messages := [("Time to drink water!", 5000)] })
  else
    ({ s with currentWaterLevel := newLevel }, noEffects)

/-- Function `startHydrationTimer`: clear the interval the ref holds (if any) and
start one new recurring task, storing its handle in the ref. -/
def startHydrationTimer (s : AppState) : AppState × Effects :=
  let cancelledCount : ℕ := if s.refHeld then 1 else 0
  ({ s with liveIntervals := s.liveIntervals - cancelledCount + 1, refHeld := true },
   { noEffects with cancelled := cancelledCount, started := 1 })

/-- Function `resetHydration`: set the water level to 100, restart the timer and
show "Hydration reset! Drink up!" for 2000 ms. -/
def resetHydration (s : AppState) : AppState × Effects :=
  let r := startHydrationTimer { s with currentWaterLevel := 100 }
  (r.1, { r.2 with messages := r.2.messages ++ [("Hydration reset! Drink up!", 2000)] })

/-- Model of the browser value sanitization of the duration slider, the
`<input type="range" min="30" max="240" step="15">` element: a range
input clamps any assigned or interacted value into `[min, max]`, so the
change handler only ever observes values in `[30, 240]`.  (Step snapping
is not needed by any claim and is omitted.) -/
def sliderSanitize (v : ℤ) : ℤ :=
  max 30 (min 240 v)

/-- Function `handleTimerChange`: store `parseInt(event.target.value)` of the
sanitized slider value as the new duration. -/
def handleTimerChange (s : AppState) (v : ℤ) : AppState :=
  { s with timerDuration := sliderSanitize v }

/-- The `useEffect` on `timerDuration`: a duration change restarts the
timer (`startHydrationTimer`) at the current water level. -/
def setDurationEvent (s : AppState) (v : ℤ) : AppState × Effects :=
  startHydrationTimer (handleTimerChange s v)

/-- The "Reset All" button `onClick`: restore duration 60, all reminder
channels off, the generic body type and the empty tip, then
`resetHydration` (water level 100, timer restart) and show
"All settings reset!" for 2000 ms. -/
def resetAllClick (s : AppState) : AppState × Effects :=
  let s1 := { s with
      timerDuration := 60
      reminderSettings := { browser := false, sound := false, visual := false }
      selectedBodyType := BodyType.generic
      hydrationTip := "" }
  let r := resetHydration s1
  (r.1, { r.2 with messages := r.2.messages ++ [("All settings reset!", 2000)] })

/-- State update of `handleReminderChange`: set the flag of the toggled
channel. -/
def setChannel (rs : ReminderSettings) (c : Channel) (b : Bool) : ReminderSettings :=
  match c with
  | Channel.browser => { rs with browser := b }
  | Channel.sound => { rs with sound := b }
  | Channel.visual => { rs with visual := b }

/-- The level reached by one depletion tick, as a function of the
configured duration: the level part of `decrementWaterLevel`. -/
def tickLevel (D : ℤ) (l : ℚ) : ℚ :=
  let newLevel := l - waterDecreasePerSecond D
  if newLevel ≤ 0 then 0 else newLevel

/-- The water level after `n` one-second ticks starting from the full
level 100, with configured duration `D` minutes. -/
def levelAfter (D : ℤ) : ℕ → ℚ
  | 0 => 100
  | n + 1 => tickLevel D (levelAfter D n)

/-- Fill color chosen by `updateWaterLevelVisual`: red below 30, orange
below 60, blue otherwise. -/
def fillColor (currentWaterLevel : ℚ) : String :=
  if currentWaterLevel < 30 then "#ef4444"
  else if currentWaterLevel < 60 then "#f97316"
  else "#60a5fa"

/-- Water-indicator color of `Model` in `HumanModel3D.tsx`:
the same `< 30` and `< 60` thresholds selecting `#ef4444`, `#f97316` and
`#60a5fa`. -/
def modelWaterColor (waterLevel : ℚ) : String :=
  if waterLevel < 30 then "#ef4444"
  else if waterLevel < 60 then "#f97316"
  else "#60a5fa"

/-- Events driving the component: a depletion tick (fires only while a
recurring task is live), the duration slider, the "Drink Now!" button
(`resetHydration`), the "Reset All" button, a reminder checkbox and the
body-type selector. -/
inductive Event
  | tick
  | setDuration (v : ℤ)
  | drinkNow
  | resetAll
  | reminderChange (c : Channel) (b : Bool)
  | bodyTypeChange (b : BodyType)

/-- One step of the component under an event. -/
def step (s : AppState) : Event → AppState × Effects
  | Event.tick => decrementWaterLevel s
  | Event.setDuration v => setDurationEvent s v
  | Event.drinkNow => resetHydration s
  | Event.resetAll => resetAllClick s
  | Event.reminderChange c b =>
      ({ s with reminderSettings := setChannel s.reminderSettings c b }, noEffects)
  | Event.bodyTypeChange b =>
      ({ s with selectedBodyType := b }, noEffects)

/-- An event is enabled: a tick can only fire while the ref holds a live
recurring task; every user event is always enabled. -/
def enabled (s : AppState) : Event → Prop
  | Event.tick => s.refHeld = true
  | _ => True

/-- The mounted initial state: the `useState` initial values (level 100,
duration 60, generic body, all channels off, empty tip, not loading),
after the mount `useEffect` ran `startHydrationTimer` once. -/
def initState : AppState :=
  { currentWaterLevel := 100
    timerDuration := 60
    selectedBodyType := BodyType.generic
    reminderSettings := { browser := false, sound := false, visual := false }
    hydrationTip := ""
    isLoadingTip := false
    liveIntervals := 1
    refHeld := true }

/-- States reachable from the mounted initial state by enabled events. -/
inductive Reachable : AppState → Prop
  | init : Reachable initState
  | next (s : AppState) (e : Event) (hs : Reachable s) (he : enabled s e) :
      Reachable (step s e).1

/-- One part of a Gemini response candidate.  Its `text` field may be
absent (`undefined`): the guard chain of `getHydrationTip` never checks
`text` itself, so an absent `text` flows through unchecked. -/
structure TipPart where
  text : Option String
deriving DecidableEq

/-- Field `candidates[i].content`; `parts` may be absent (`undefined`). -/
structure TipContent where
  parts : Option (List TipPart)
deriving DecidableEq

/-- One response candidate; `content` may be absent (`undefined`). -/
structure TipCandidate where
  content : Option TipContent
deriving DecidableEq

/-- A parsed JSON response body; an absent `candidates` field is modelled
as the empty list (both fail the `candidates && candidates.length > 0`
guard identically). -/
structure ApiResult where
  candidates : List TipCandidate
deriving DecidableEq

/-- The guard chain of `getHydrationTip`: `result.candidates &&
result.candidates.length > 0 && result.candidates[0].content &&
result.candidates[0].content.parts && ...parts.length > 0`, returning
`candidates[0].content.parts[0]` when it all holds.  The guard stops at
the part object: whether that part carries a `text` string is never
checked. -/
def firstCandidatePart (r : ApiResult) : Option TipPart :=
  match r.candidates with
  | [] => none
  | c :: _ =>
    match c.content with
    | none => none
    | some ct =>
      match ct.parts with
      | none => none
      | some [] => none
      | some (p :: _) => some p

/-- The possible outcomes of the tip fetch: the `fetch` promise rejects
(network/transport), `response.ok` is false (the code throws, landing in
the `catch`), `response.json()` rejects (also the `catch`), or a JSON
body is parsed. -/
inductive FetchOutcome
  | transportError
  | httpError
  | jsonError
  | ok (result : ApiResult)

/-- The tip-related component state.  `hydrationTip` is an
`Option String`: `some s` is a string value and `none` is the JS
`undefined` that `setHydrationTip(...parts[0].text)` stores when the
guard-passing first part has no `text` field. -/
structure TipState where
  hydrationTip : Option String
  isLoadingTip : Bool
deriving DecidableEq

/-- Function `getHydrationTip`, as a function of the fetch outcome: set
`isLoadingTip` and clear the tip, then on a parsed response that passes
the guard store `candidates[0].content.parts[0].text` — which is
`undefined` when the part has no `text` field, since the guard never
checks it — on a parsed response that fails the guard store
"Could not fetch a tip. Please try again." (no `showMessage`), and in the
`catch` (transport / HTTP / JSON failure) store
"Failed to get a tip. Network error or API issue." and show
"Failed to get a tip. Please check your connection." for 3000 ms; the
`finally` clears `isLoadingTip` on every path. -/
def getHydrationTip (outcome : FetchOutcome) : TipState × List (String × ℕ) :=
  let completion : Option String × List (String × ℕ) :=
    match outcome with
    | FetchOutcome.ok result =>
      match firstCandidatePart result with
      | some p => (p.text, [])
      | none => (some "Could not fetch a tip. Please try again.", [])
    | _ => (some "Failed to get a tip. Network error or API issue.",
            [("Failed to get a tip. Please check your connection.", 3000)])
  ({ hydrationTip := completion.1, isLoadingTip := false }, completion.2)

/-- The expected success shape of the external interface (a first
candidate whose first part carries a text string); any deviation is a
fetch failure in the sense of the spec. -/
def isWellFormed (r : ApiResult) : Bool :=
  match firstCandidatePart r with
  | some p => p.text.isSome
  | none => false

/-- An outcome counts as a failure (malformed response or transport
failure) when it is not a parsed response of the expected success
shape. -/
def isFailureOutcome : FetchOutcome → Bool
  | FetchOutcome.ok r => ! isWellFormed r
  | _ => true

/-- An outcome that lands in the `catch` block: transport failure,
non-ok HTTP status, or a JSON body that fails to parse. -/
def isCaughtOutcome : FetchOutcome → Bool
  | FetchOutcome.ok _ => false
  | _ => true

/-- The three states of `Notification.permission`. -/
inductive NotifPermission
  | defaultPerm
  | granted
  | denied
deriving DecidableEq

/-- Function `requestNotificationPermission`, as a function of whether the browser
supports notifications, the current `Notification.permission`, and the
answer the user gives if `Notification.requestPermission()` is called.
Returns the reminder settings after the flow, whether a permission
request was actually triggered, and the messages shown.  The request is
only issued when the permission is neither "granted" nor "denied"; a
denied request unchecks the browser channel. -/
def requestNotificationPermission (supported : Bool) (perm : NotifPermission)
    (answer : NotifPermission) (rs : ReminderSettings) :
    ReminderSettings × Bool × List (String × ℕ) :=
  if supported = false then
    (rs, false, [("This browser does not support desktop notifications.", 3000)])
  else if perm ≠ NotifPermission.granted ∧ perm ≠ NotifPermission.denied then
    if answer = NotifPermission.granted then
      (rs, true, [("Browser notifications enabled!", 3000)])
    else
      ({ rs with browser := false }, true,
       [("Browser notifications denied. Please enable them in your browser settings.", 3000)])
  else
    (rs, false, [])

/-- Function `handleReminderChange` for the `reminderBrowser` checkbox being
checked: set `browser := true`, then run
`requestNotificationPermission`. -/
def handleReminderBrowserChecked (supported : Bool) (perm : NotifPermission)
    (answer : NotifPermission) (rs : ReminderSettings) :
    ReminderSettings × Bool × List (String × ℕ) :=
  requestNotificationPermission supported perm answer { rs with browser := true }

/-- The component invariant: the water level stays in `[0, 100]`, the
duration stays in the slider range `[30, 240]`, and the live recurring
tasks are exactly the handle the ref holds. -/
def StateInv (s : AppState) : Prop :=
  0 ≤ s.currentWaterLevel ∧ s.currentWaterLevel ≤ 100 ∧
  30 ≤ s.timerDuration ∧ s.timerDuration ≤ 240 ∧
  s.liveIntervals = (if s.refHeld then 1 else 0)

lemma waterDecreasePerSecond_pos {D : ℤ} (hD : 0 < D) :
    0 < waterDecreasePerSecond D := by
  have hQ : (0 : ℚ) < (D : ℚ) := by exact_mod_cast hD
  have h60 : (0 : ℚ) < (D : ℚ) * 60 := by linarith
  exact div_pos (by norm_num) h60

lemma sliderSanitize_mem (v : ℤ) :
    30 ≤ sliderSanitize v ∧ sliderSanitize v ≤ 240 := by
  unfold sliderSanitize
  constructor
  · exact le_max_left 30 (min 240 v)
  · exact max_le (by norm_num) (min_le_left 240 v)

lemma stateInv_init : StateInv initState := by
  simp [StateInv, initState]

lemma stateInv_startHydrationTimer {s : AppState} (h : StateInv s) :
    StateInv (startHydrationTimer s).1 := by
  obtain ⟨h0, h100, hlo, hhi, hlive⟩ := h
  unfold startHydrationTimer
  refine ⟨h0, h100, hlo, hhi, ?_⟩
  cases hrb : s.refHeld <;> simp [hrb] at hlive ⊢ <;> omega

lemma stateInv_step (s : AppState) (e : Event) (h : StateInv s) : StateInv (step s e).1 := by
  obtain ⟨h0, h100, hlo, hhi, hlive⟩ := h
  cases e with
  | tick =>
    have hdec : 0 < waterDecreasePerSecond s.timerDuration :=
      waterDecreasePerSecond_pos (by omega)
    show StateInv (decrementWaterLevel s).1
    unfold decrementWaterLevel
    by_cases hc : s.currentWaterLevel - waterDecreasePerSecond s.timerDuration ≤ 0
    · simp only [hc, if_pos]
      refine ⟨le_refl 0, by norm_num, hlo, hhi, ?_⟩
      by_cases hr : s.refHeld <;> simp [hr] at hlive ⊢ <;> omega
    · simp only [hc, if_neg, not_false_iff]
      push_neg at hc
      refine ⟨le_of_lt hc, ?_, hlo, hhi, hlive⟩
      show s.currentWaterLevel - waterDecreasePerSecond s.timerDuration ≤ 100
      linarith
  | setDuration v =>
    show StateInv (setDurationEvent s v).1
    unfold setDurationEvent
    have hmem := sliderSanitize_mem v
    exact stateInv_startHydrationTimer
      ⟨h0, h100, hmem.1, hmem.2, hlive⟩
  | drinkNow =>
    show StateInv (resetHydration s).1
    unfold resetHydration
    exact stateInv_startHydrationTimer
      ⟨by norm_num, by norm_num, hlo, hhi, hlive⟩
  | resetAll =>
    show StateInv (resetAllClick s).1
    unfold resetAllClick resetHydration
    exact stateInv_startHydrationTimer
      ⟨by norm_num, by norm_num, by norm_num, by norm_num, hlive⟩
  | reminderChange c b =>
    exact ⟨h0, h100, hlo, hhi, hlive⟩
  | bodyTypeChange b =>
    exact ⟨h0, h100, hlo, hhi, hlive⟩

lemma stateInv_of_reachable {s : AppState} (h : Reachable s) : StateInv s := by
  induction h with
  | init => exact stateInv_init
  | next s e hs he ih => exact stateInv_step s e ih

lemma tickLevel_nonneg (D : ℤ) (l : ℚ) : 0 ≤ tickLevel D l := by
  simp only [tickLevel]
  split_ifs with h
  · exact le_refl 0
  · push_neg at h
    exact le_of_lt h

/-- Closed form of the depletion sequence: as long as `n` has not passed
`60 * D` ticks, the level after `n` ticks is exactly
`100 - n * (100 / (D * 60))`. -/
lemma levelAfter_formula (D : ℤ) (hD : 0 < D) :
    ∀ n : ℕ, (n : ℤ) ≤ 60 * D →
      levelAfter D n = 100 - (n : ℚ) * (100 / ((D : ℚ) * 60)) := by
  have hDQ : (0 : ℚ) < (D : ℚ) := by exact_mod_cast hD
  have hdQ : (0 : ℚ) < (D : ℚ) * 60 := by linarith
  have hdne : ((D : ℚ) * 60) ≠ 0 := ne_of_gt hdQ
  have hupos : 0 < 100 / ((D : ℚ) * 60) := div_pos (by norm_num) hdQ
  have hu : ((D : ℚ) * 60) * (100 / ((D : ℚ) * 60)) = 100 := by field_simp
  intro n
  induction n with
  | zero =>
    intro _
    simp [levelAfter]
  | succ n ih =>
    intro hn1
    have hn : (n : ℤ) ≤ 60 * D := by
      push_cast at hn1
      omega
    have heq : levelAfter D (n + 1)
        = tickLevel D (100 - (n : ℚ) * (100 / ((D : ℚ) * 60))) := by
      rw [levelAfter, ih hn]
    rw [heq]
    simp only [tickLevel, waterDecreasePerSecond]
    by_cases hcl : 100 - (n : ℚ) * (100 / ((D : ℚ) * 60)) - 100 / ((D : ℚ) * 60) ≤ 0
    · rw [if_pos hcl]
      have h1 : (D : ℚ) * 60 ≤ (n : ℚ) + 1 := by
        by_contra hcon
        push_neg at hcon
        nlinarith [hcl, hu, hupos]
      have h2 : (n : ℚ) + 1 ≤ (D : ℚ) * 60 := by
        have h2' : ((n : ℤ) + 1 : ℤ) ≤ 60 * D := by
          push_cast at hn1
          omega
        have h2Q : ((n : ℚ) + 1) ≤ 60 * (D : ℚ) := by exact_mod_cast h2'
        linarith
      have h12 : (n : ℚ) + 1 = (D : ℚ) * 60 := le_antisymm h2 h1
      push_cast
      rw [h12, hu]
      norm_num
    · rw [if_neg hcl]
      push_cast
      ring

lemma decrementWaterLevel_no_clamp {s : AppState}
    (h : ¬ (s.currentWaterLevel - waterDecreasePerSecond s.timerDuration ≤ 0)) :
    decrementWaterLevel s =
      ({ s with currentWaterLevel :=
          s.currentWaterLevel - waterDecreasePerSecond s.timerDuration }, noEffects) := by
  simp only [decrementWaterLevel, if_neg h]

lemma decrementWaterLevel_clamp {s : AppState}
    (h : s.currentWaterLevel - waterDecreasePerSecond s.timerDuration ≤ 0) :
    decrementWaterLevel s =
      ({ s with
          currentWaterLevel := 0
          liveIntervals := if s.refHeld then s.liveIntervals - 1 else s.liveIntervals
          refHeld := false },
       { triggerReminder s.reminderSettings with
          cancelled := if s.refHeld then 1 else 0
          messages := [("Time to drink water!", 5000)] }) := by
  simp only [decrementWaterLevel, if_pos h]

/-- C1: on every one-second tick with configured duration `D`, the driver
decreases the water level by exactly `100 / (D * 60)`; if the decremented
value is `≤ 0` it clamps the level to 0, cancels the recurring task (the
interval ref becomes null), invokes the reminder dispatcher with the
current channel settings and shows the "Time to drink water!" message. -/
theorem claim_c1_tick_contract (s : AppState) (hD : 0 < s.timerDuration) :
    (0 < s.currentWaterLevel - waterDecreasePerSecond s.timerDuration →
      (decrementWaterLevel s).1.currentWaterLevel
          = s.currentWaterLevel - 100 / ((s.timerDuration : ℚ) * 60) ∧
      (decrementWaterLevel s).2.reminderDispatched = false ∧
      (decrementWaterLevel s).2.messages = []) ∧
    (s.currentWaterLevel - waterDecreasePerSecond s.timerDuration ≤ 0 →
      (decrementWaterLevel s).1.currentWaterLevel = 0 ∧
      (decrementWaterLevel s).1.refHeld = false ∧
      (decrementWaterLevel s).2.reminderDispatched = true ∧
      (decrementWaterLevel s).2.channels = s.reminderSettings ∧
      (decrementWaterLevel s).2.messages = [("Time to drink water!", 5000)]) := by
  constructor
  · intro h
    rw [decrementWaterLevel_no_clamp (not_le.mpr h)]
    exact ⟨rfl, rfl, rfl⟩
  · intro h
    rw [decrementWaterLevel_clamp h]
    exact ⟨rfl, rfl, rfl, rfl, rfl⟩

/-- Witness for C1 at the mounted initial state (level 100, duration
60): the first tick does not clamp and subtracts exactly
`100 / (60 * 60)`. -/
theorem claim_c1_witness :
    (decrementWaterLevel initState).1.currentWaterLevel
      = initState.currentWaterLevel - 100 / ((initState.timerDuration : ℚ) * 60) :=
  ((claim_c1_tick_contract initState (by norm_num [initState])).1
    (by norm_num [initState, waterDecreasePerSecond])).1

/-- C2: the water level starts at 100, stays in `[0, 100]` in every
reachable state, each tick strictly decreases it or clamps it to 0, and
a tick that leaves the level at 0 has stopped the driver (the interval
ref is null afterwards, so no further tick is enabled until a restart). -/
theorem claim_c2_level_invariant :
    initState.currentWaterLevel = 100 ∧
    (∀ s : AppState, Reachable s →
      0 ≤ s.currentWaterLevel ∧ s.currentWaterLevel ≤ 100) ∧
    (∀ s : AppState, Reachable s →
      (decrementWaterLevel s).1.currentWaterLevel < s.currentWaterLevel ∨
      (decrementWaterLevel s).1.currentWaterLevel = 0) ∧
    (∀ s : AppState, Reachable s →
      (decrementWaterLevel s).1.currentWaterLevel = 0 →
      (decrementWaterLevel s).1.refHeld = false) := by
  refine ⟨rfl, ?_, ?_, ?_⟩
  · intro s hs
    obtain ⟨h0, h100, _, _, _⟩ := stateInv_of_reachable hs
    exact ⟨h0, h100⟩
  · intro s hs
    obtain ⟨h0, h100, hlo, hhi, hlive⟩ := stateInv_of_reachable hs
    have hdec : 0 < waterDecreasePerSecond s.timerDuration :=
      waterDecreasePerSecond_pos (by omega)
    by_cases hc : s.currentWaterLevel - waterDecreasePerSecond s.timerDuration ≤ 0
    · right
      rw [decrementWaterLevel_clamp hc]
    · left
      rw [decrementWaterLevel_no_clamp hc]
      show s.currentWaterLevel - waterDecreasePerSecond s.timerDuration
          < s.currentWaterLevel
      linarith
  · intro s hs hzero
    by_cases hc : s.currentWaterLevel - waterDecreasePerSecond s.timerDuration ≤ 0
    · rw [decrementWaterLevel_clamp hc]
    · exfalso
      rw [decrementWaterLevel_no_clamp hc] at hzero
      push_neg at hc
      have : s.currentWaterLevel - waterDecreasePerSecond s.timerDuration = 0 := hzero
      linarith

/-- Witness for C2 at the mounted initial state. -/
theorem claim_c2_witness :
    0 ≤ initState.currentWaterLevel ∧ initState.currentWaterLevel ≤ 100 :=
  claim_c2_level_invariant.2.1 initState Reachable.init

/-- C3: for every duration `D` in `[30, 240]`, the tick sequence started
at level 100 is strictly decreasing until it reaches 0, never negative,
strictly positive before `D * 60` ticks, and exactly 0 after exactly
`D * 60` ticks. -/
theorem claim_c3_depletion (D : ℤ) (hlo : 30 ≤ D) (hhi : D ≤ 240) :
    (∀ n : ℕ, (n : ℤ) < 60 * D → levelAfter D (n + 1) < levelAfter D n) ∧
    (∀ n : ℕ, 0 ≤ levelAfter D n) ∧
    (∀ n : ℕ, (n : ℤ) < 60 * D → 0 < levelAfter D n) ∧
    levelAfter D (60 * D).toNat = 0 := by
  have hD : 0 < D := by omega
  have hDQ : (0 : ℚ) < (D : ℚ) := by exact_mod_cast hD
  have hdQ : (0 : ℚ) < (D : ℚ) * 60 := by linarith
  have hdne : ((D : ℚ) * 60) ≠ 0 := ne_of_gt hdQ
  have hupos : 0 < 100 / ((D : ℚ) * 60) := div_pos (by norm_num) hdQ
  have hu : ((D : ℚ) * 60) * (100 / ((D : ℚ) * 60)) = 100 := by field_simp
  refine ⟨?_, ?_, ?_, ?_⟩
  · intro n hn
    have hn' : (n : ℤ) ≤ 60 * D := le_of_lt hn
    have hn1 : ((n + 1 : ℕ) : ℤ) ≤ 60 * D := by push_cast; omega
    rw [levelAfter_formula D hD n hn', levelAfter_formula D hD (n + 1) hn1]
    push_cast
    linarith
  · intro n
    cases n with
    | zero => norm_num [levelAfter]
    | succ m =>
      have h := tickLevel_nonneg D (levelAfter D m)
      rw [levelAfter]
      exact h
  · intro n hn
    rw [levelAfter_formula D hD n (le_of_lt hn)]
    have hnQ : (n : ℚ) < (D : ℚ) * 60 := by
      have : (n : ℚ) < 60 * (D : ℚ) := by exact_mod_cast hn
      linarith
    nlinarith [hupos, hu, hnQ]
  · have hnn : (0 : ℤ) ≤ 60 * D := by omega
    have hcast : (((60 * D).toNat : ℤ)) = 60 * D := Int.toNat_of_nonneg hnn
    rw [levelAfter_formula D hD _ (le_of_eq hcast)]
    have hQ : (((60 * D).toNat : ℕ) : ℚ) = (D : ℚ) * 60 := by
      have h1 : (((60 * D).toNat : ℤ) : ℚ) = ((60 * D : ℤ) : ℚ) := by
        exact_mod_cast hcast
      push_cast at h1
      linarith
    rw [hQ, hu]
    norm_num

/-- Witness for C3 at `D = 30`: the level hits exactly 0 after
`60 * 30 = 1800` ticks. -/
theorem claim_c3_witness : levelAfter 30 ((60 * (30 : ℤ)).toNat) = 0 :=
  (claim_c3_depletion 30 (by norm_num) (by norm_num)).2.2.2

/-- C4: the fill color is a pure threshold function of the water level:
below 30 the alert color `#ef4444`, from 30 up to (excluding) 60 the
warning color `#f97316`, from 60 up the normal color `#60a5fa`; it agrees
with the color choice of the 3D model, and at the boundary inputs 29.9, 30,
59.9 and 60 it yields alert, warning, warning and normal respectively. -/
theorem claim_c4_fill_color :
    (∀ l : ℚ, l < 30 → fillColor l = "#ef4444") ∧
    (∀ l : ℚ, 30 ≤ l → l < 60 → fillColor l = "#f97316") ∧
    (∀ l : ℚ, 60 ≤ l → fillColor l = "#60a5fa") ∧
    (∀ l : ℚ, fillColor l = modelWaterColor l) ∧
    fillColor (299 / 10) = "#ef4444" ∧
    fillColor 30 = "#f97316" ∧
    fillColor (599 / 10) = "#f97316" ∧
    fillColor 60 = "#60a5fa" := by
  refine ⟨?_, ?_, ?_, ?_, ?_, ?_, ?_, ?_⟩
  · intro l h
    simp [fillColor, h]
  · intro l h1 h2
    simp [fillColor, not_lt.mpr h1, h2]
  · intro l h
    have h1 : ¬ l < 30 := by linarith
    have h2 : ¬ l < 60 := by linarith
    simp [fillColor, h1, h2]
  · intro l
    rfl
  · norm_num [fillColor]
  · norm_num [fillColor]
  · norm_num [fillColor]
  · norm_num [fillColor]

/-- Witness for C4 at the concrete level 15 (below the alert
threshold). -/
theorem claim_c4_witness : fillColor 15 = "#ef4444" :=
  claim_c4_fill_color.1 15 (by norm_num)

/-- C5: after "Reset All", regardless of the prior state, the water level
is 100, the duration is 60, the body type is generic, all three reminder
channels are off and the tip is the empty string. -/
theorem claim_c5_reset_all (s : AppState) :
    (resetAllClick s).1.currentWaterLevel = 100 ∧
    (resetAllClick s).1.timerDuration = 60 ∧
    (resetAllClick s).1.selectedBodyType = BodyType.generic ∧
    (resetAllClick s).1.reminderSettings
      = { browser := false, sound := false, visual := false } ∧
    (resetAllClick s).1.hydrationTip = "" :=
  ⟨rfl, rfl, rfl, rfl, rfl⟩

/-- C9: at most one recurring tick task is ever live; a duration change
cancels exactly the previously live tasks (one when the timer is
running) and starts exactly one new task, leaving the water level
untouched; the "Drink Now!" reset likewise swaps exactly one task in. -/
theorem claim_c9_single_timer :
    (∀ s : AppState, Reachable s → s.liveIntervals ≤ 1) ∧
    (∀ (s : AppState) (v : ℤ), Reachable s →
      (setDurationEvent s v).2.cancelled = s.liveIntervals ∧
      (setDurationEvent s v).2.started = 1 ∧
      (setDurationEvent s v).1.liveIntervals = 1 ∧
      (setDurationEvent s v).1.currentWaterLevel = s.currentWaterLevel) ∧
    (∀ s : AppState, Reachable s →
      (resetHydration s).2.cancelled = s.liveIntervals ∧
      (resetHydration s).2.started = 1 ∧
      (resetHydration s).1.liveIntervals = 1) := by
  refine ⟨?_, ?_, ?_⟩
  · intro s hs
    obtain ⟨_, _, _, _, hlive⟩ := stateInv_of_reachable hs
    rw [hlive]
    by_cases hrb : s.refHeld = true <;> simp [hrb]
  · intro s v hs
    obtain ⟨_, _, _, _, hlive⟩ := stateInv_of_reachable hs
    refine ⟨hlive.symm, rfl, ?_, rfl⟩
    show s.liveIntervals - (if s.refHeld = true then 1 else 0) + 1 = 1
    rw [hlive, Nat.sub_self]
  · intro s hs
    obtain ⟨_, _, _, _, hlive⟩ := stateInv_of_reachable hs
    refine ⟨hlive.symm, rfl, ?_⟩
    show s.liveIntervals - (if s.refHeld = true then 1 else 0) + 1 = 1
    rw [hlive, Nat.sub_self]

/-- Witness for C9 at the mounted initial state. -/
theorem claim_c9_witness : initState.liveIntervals ≤ 1 :=
  claim_c9_single_timer.1 initState Reachable.init

/-- C10: the "empty" signal is not once-per-depletion: a tick executed
while the level is already 0 (with a live interval, e.g. after a
duration change restarted the timer without refilling) computes
`0 - 100/(D*60) ≤ 0`, so it dispatches the reminders and the
"Time to drink water!" message again and re-clamps the level to 0;
and a duration change at level 0 indeed restarts the interval while
leaving the level at 0. -/
theorem claim_c10_repeat_empty_signal (s : AppState)
    (hlev : s.currentWaterLevel = 0) (hD : 0 < s.timerDuration)
    (hlive : s.refHeld = true) :
    s.currentWaterLevel - waterDecreasePerSecond s.timerDuration ≤ 0 ∧
    (decrementWaterLevel s).2.reminderDispatched = true ∧
    (decrementWaterLevel s).2.messages = [("Time to drink water!", 5000)] ∧
    (decrementWaterLevel s).1.currentWaterLevel = 0 ∧
    (decrementWaterLevel s).1.refHeld = false ∧
    (∀ v : ℤ, (setDurationEvent s v).1.currentWaterLevel = 0 ∧
      (setDurationEvent s v).1.refHeld = true) := by
  have hdec : 0 < waterDecreasePerSecond s.timerDuration :=
    waterDecreasePerSecond_pos hD
  have hc : s.currentWaterLevel - waterDecreasePerSecond s.timerDuration ≤ 0 := by
    rw [hlev]
    linarith
  rw [decrementWaterLevel_clamp hc]
  refine ⟨hc, rfl, rfl, rfl, rfl, ?_⟩
  intro v
  exact ⟨hlev, rfl⟩

/-- Witness for C10 at the concrete emptied state: initial state with the
level forced to 0 and the interval restarted. -/
theorem claim_c10_witness :
    (decrementWaterLevel { initState with currentWaterLevel := 0 }).2.reminderDispatched
      = true :=
  (claim_c10_repeat_empty_signal { initState with currentWaterLevel := 0 }
    rfl (by norm_num [initState]) rfl).2.1

/-- C6 counterexample: two malformed parsed responses refute the claim.
A body with no candidates is a failure outcome for which the failure tip
is stored but no transient message is surfaced; and a body whose first
part passes the whole guard while lacking a `text` field is a failure
outcome for which the stored tip is the `undefined` text — not a
non-empty failure string — and again no transient message is surfaced. -/
theorem claim_c6_counterexample :
    isFailureOutcome (FetchOutcome.ok { candidates := [] }) = true ∧
    (getHydrationTip (FetchOutcome.ok { candidates := [] })).1.hydrationTip
      = some "Could not fetch a tip. Please try again." ∧
    (getHydrationTip (FetchOutcome.ok { candidates := [] })).2 = [] ∧
    isFailureOutcome (FetchOutcome.ok
      { candidates := [{ content := some { parts := some [{ text := none }] } }] })
      = true ∧
    (getHydrationTip (FetchOutcome.ok
      { candidates := [{ content := some { parts := some [{ text := none }] } }] })
      ).1.hydrationTip = none ∧
    (getHydrationTip (FetchOutcome.ok
      { candidates := [{ content := some { parts := some [{ text := none }] } }] })
      ).2 = [] :=
  ⟨rfl, rfl, rfl, rfl, rfl, rfl⟩

/-- C6 (amended): for every fetch outcome, loading is false after
completion.  On the caught outcomes (transport failure, non-ok HTTP
status, JSON parse failure) the tip is the non-empty failure string
"Failed to get a tip. Network error or API issue." and a transient
message is surfaced.  On every parsed response no transient message is
surfaced; if the guard fails, the tip is the non-empty failure string
"Could not fetch a tip. Please try again.", and if the guard passes, the
tip is exactly the text of the first part — the `undefined` value, not a
failure string, when that part lacks a `text` field. -/
theorem claim_c6_tip_fetch (outcome : FetchOutcome) :
    (getHydrationTip outcome).1.isLoadingTip = false ∧
    (isCaughtOutcome outcome = true →
      (getHydrationTip outcome).1.hydrationTip
        = some "Failed to get a tip. Network error or API issue." ∧
      (getHydrationTip outcome).2 ≠ []) ∧
    (∀ r : ApiResult, outcome = FetchOutcome.ok r →
      (getHydrationTip outcome).2 = [] ∧
      (firstCandidatePart r = none →
        (getHydrationTip outcome).1.hydrationTip
          = some "Could not fetch a tip. Please try again.") ∧
      (∀ p : TipPart, firstCandidatePart r = some p →
        (getHydrationTip outcome).1.hydrationTip = p.text)) := by
  refine ⟨rfl, ?_, ?_⟩
  · intro hcaught
    cases outcome with
    | transportError => exact ⟨rfl, by decide⟩
    | httpError => exact ⟨rfl, by decide⟩
    | jsonError => exact ⟨rfl, by decide⟩
    | ok r => simp [isCaughtOutcome] at hcaught
  · intro r hr
    subst hr
    refine ⟨?_, ?_, ?_⟩
    · cases hfp : firstCandidatePart r with
      | none => simp [getHydrationTip, hfp]
      | some p => simp [getHydrationTip, hfp]
    · intro hfp
      simp [getHydrationTip, hfp]
    · intro p hfp
      simp [getHydrationTip, hfp]

/-- Witness for C6 (amended) at a concrete transport failure. -/
theorem claim_c6_witness :
    (getHydrationTip FetchOutcome.transportError).1.isLoadingTip = false ∧
    (getHydrationTip FetchOutcome.transportError).2 ≠ [] :=
  ⟨(claim_c6_tip_fetch FetchOutcome.transportError).1,
   ((claim_c6_tip_fetch FetchOutcome.transportError).2.1 rfl).2⟩

/-- C7: the value sanitization of the duration slider clamps every value into
`[30, 240]`, so the stored duration is always strictly positive and, in
every reachable state, the tick decrement `100 / (D * 60)` is only ever
computed with a strictly positive `D` — a non-positive duration is
prevented at the input boundary. -/
theorem claim_c7_duration_positive :
    (∀ v : ℤ, 0 < sliderSanitize v ∧ 30 ≤ sliderSanitize v ∧ sliderSanitize v ≤ 240) ∧
    (∀ (s : AppState) (v : ℤ), 0 < (handleTimerChange s v).timerDuration) ∧
    (∀ s : AppState, Reachable s → 0 < s.timerDuration) := by
  refine ⟨?_, ?_, ?_⟩
  · intro v
    have h := sliderSanitize_mem v
    exact ⟨by omega, h.1, h.2⟩
  · intro s v
    have h := sliderSanitize_mem v
    show 0 < sliderSanitize v
    omega
  · intro s hs
    obtain ⟨_, _, hlo, _, _⟩ := stateInv_of_reachable hs
    omega

/-- Witness for C7 at the mounted initial state. -/
theorem claim_c7_witness : 0 < initState.timerDuration :=
  claim_c7_duration_positive.2.2 initState Reachable.init

/-- C8 counterexample: toggling the browser channel on while the
platform permission is already denied triggers no permission request and
leaves the channel on, refuting the claim that a request is triggered
and the channel reverts to off whenever permission is denied. -/
theorem claim_c8_counterexample :
    (handleReminderBrowserChecked true NotifPermission.denied NotifPermission.denied
        { browser := false, sound := false, visual := false }).2.1 = false ∧
    (handleReminderBrowserChecked true NotifPermission.denied NotifPermission.denied
        { browser := false, sound := false, visual := false }).1.browser = true :=
  ⟨rfl, rfl⟩

/-- C8 (amended): toggling the browser channel on triggers a permission
request only while the permission is in its default state (neither
granted nor denied); if that request ends in denial the channel reverts
to off, and if it is granted the channel stays on.  While permission is
already denied, no request is triggered and the channel stays on. -/
theorem claim_c8_permission_flow (answer : NotifPermission) (rs : ReminderSettings) :
    ((handleReminderBrowserChecked true NotifPermission.defaultPerm answer rs).2.1
      = true) ∧
    (answer ≠ NotifPermission.granted →
      (handleReminderBrowserChecked true NotifPermission.defaultPerm answer rs).1.browser
        = false) ∧
    (answer = NotifPermission.granted →
      (handleReminderBrowserChecked true NotifPermission.defaultPerm answer rs).1.browser
        = true) ∧
    ((handleReminderBrowserChecked true NotifPermission.denied answer rs).2.1
      = false) ∧
    ((handleReminderBrowserChecked true NotifPermission.denied answer rs).1.browser
      = true) := by
  refine ⟨?_, ?_, ?_, ?_, ?_⟩
  · cases answer <;> rfl
  · intro h
    cases answer with
    | defaultPerm => rfl
    | granted => exact absurd rfl h
    | denied => rfl
  · intro h
    subst h
    rfl
  · cases answer <;> rfl
  · cases answer <;> rfl

/-- Witness for C8 (amended): with default permission and a denying
user, the channel ends up off. -/
theorem claim_c8_witness :
    (handleReminderBrowserChecked true NotifPermission.defaultPerm NotifPermission.denied
        { browser := false, sound := false, visual := false }).1.browser = false :=
  (claim_c8_permission_flow NotifPermission.denied
    { browser := false, sound := false, visual := false }).2.1 (by decide)
